import Mathlib

/-!
Verification of the forecast / what-if calculation engine of the
ai-business-sim-frontend repository (`src/utils/simulationUtils.ts`).

The engine is a set of pure functions over JavaScript numbers.  We embed it
shallowly over ℚ: every numeric value in the source becomes a rational, and
the JavaScript idiom `x || d` (substitute `d` when `x` is falsy, i.e. `0`,
`NaN` or `undefined`) becomes an explicit operation.  `Math.round x` is
`⌊x + 1/2⌋` and `Math.floor` is `⌊·⌋`, which agree with the JavaScript
functions on all finite inputs.  Missing / optional payload fields become
`Option`.  For the claims about `NaN` propagation we use a second embedding
`JsNum := Option ℚ` in which `none` plays the role of `NaN` and every
arithmetic operation propagates it, exactly as IEEE arithmetic does.
-/

namespace SimulationUtils

/-- `PLData` record from `simulationUtils.ts` (the baseline P&L snapshot). -/
structure PLData where
  monthlyRevenue : ℚ
  monthlyCOGS : ℚ
  monthlyLabor : ℚ
  monthlyOverhead : ℚ
  monthlyProfit : ℚ
  averagePrice : ℚ
  unitsSold : ℚ
  marketingSpend : ℚ
  deriving DecidableEq, Repr

/-- `OperationalFactors` record from `simulationUtils.ts`. -/
structure OperationalFactors where
  laborAutomationLevel : ℚ
  productionEfficiency : ℚ
  inventoryTurnoverRate : ℚ
  deriving DecidableEq, Repr

/-- `ForecastData` record from `simulationUtils.ts`.  All six numeric fields
are produced by `Math.round`, hence are integers. -/
structure ForecastData where
  month : String
  originalProfit : ℤ
  adjustedProfit : ℤ
  originalLowerBound : ℤ
  originalUpperBound : ℤ
  adjustedLowerBound : ℤ
  adjustedUpperBound : ℤ
  deriving DecidableEq, Repr

/-- The JavaScript idiom `x || 0` on a number: `0`, `-0` and `NaN` are falsy
(`NaN` is handled in the `JsNum` embedding below; on ℚ only `0` is). -/
def jsOr0 (x : ℚ) : ℚ := if x = 0 then 0 else x

/-- The JavaScript idiom `x || d` for an optional numeric field `x` with
default `d`: an absent field and the falsy value `0` both give `d`. -/
def jsOrD (x : Option ℚ) (d : ℚ) : ℚ :=
  match x with
  | none => d
  | some v => if v = 0 then d else v

/-- `Math.round` on a finite number: round half up, `⌊x + 1/2⌋`. -/
def jsRound (x : ℚ) : ℤ := ⌊x + 1/2⌋

/-- The payload shape read by `extractPLData`:
`payload.baseline.costs.{cogs,labor,overhead}`. -/
structure PayloadCosts where
  cogs : Option ℚ
  labor : Option ℚ
  overhead : Option ℚ
  deriving DecidableEq, Repr

/-- The payload shape read by `extractPLData`: `payload.baseline.revenue`
and `payload.baseline.costs`. -/
structure PayloadBaseline where
  revenue : Option ℚ
  costs : Option PayloadCosts
  deriving DecidableEq, Repr

/-- The payload consumed by `extractPLData`: optional `baseline` object and
top-level `averagePrice` / `marketingSpend` overrides. -/
structure Payload where
  baseline : Option PayloadBaseline
  averagePrice : Option ℚ
  marketingSpend : Option ℚ
  deriving DecidableEq, Repr

/-- The `defaultData` constant inside `extractPLData`. -/
def defaultData : PLData :=
  { monthlyRevenue := 100000
    monthlyCOGS := 60000
    monthlyLabor := 20000
    monthlyOverhead := 12000
    monthlyProfit := 8000
    averagePrice := 50
    unitsSold := 2000
    marketingSpend := 3000 }

/-- `extractPLData` from `simulationUtils.ts` lines 31-72.  A `null` /
`undefined` payload is `none`; `simulationData.baseline || {}` becomes
`getD` with the empty record; each `field || default` becomes `jsOrD`. -/
def extractPLData (simulationData : Option Payload) : PLData :=
  match simulationData with
  | none => defaultData
  | some simulationData =>
    let baseline := simulationData.baseline.getD ⟨none, none⟩
    let revenue := jsOrD baseline.revenue defaultData.monthlyRevenue
    let costs := baseline.costs.getD ⟨none, none, none⟩
    let cogs := jsOrD costs.cogs defaultData.monthlyCOGS
    let labor := jsOrD costs.labor defaultData.monthlyLabor
    let overhead := jsOrD costs.overhead defaultData.monthlyOverhead
    let profit := revenue - cogs - labor - overhead
    let averagePrice := jsOrD simulationData.averagePrice defaultData.averagePrice
    let unitsSold := revenue / averagePrice
    let marketingSpend := jsOrD simulationData.marketingSpend defaultData.marketingSpend
    { monthlyRevenue := revenue
      monthlyCOGS := cogs
      monthlyLabor := labor
      monthlyOverhead := overhead
      monthlyProfit := profit
      averagePrice := averagePrice
      unitsSold := unitsSold
      marketingSpend := marketingSpend }

/-- Return type of `calculatePriceImpact`. -/
structure PriceImpact where
  revenue : ℚ
  cogs : ℚ
  units : ℚ
  demandChange : ℚ
  deriving DecidableEq, Repr

/-- `calculatePriceImpact` from `simulationUtils.ts` lines 75-97. -/
def calculatePriceImpact (baselineData : PLData) (newPrice : ℚ) : PriceImpact :=
  let priceChangePercent := (newPrice - baselineData.averagePrice) / baselineData.averagePrice
  let demandChangePercent :=
    if priceChangePercent > 0 then
      -priceChangePercent * (15/10)
    else
      -priceChangePercent * (8/10)
  let newUnits := baselineData.unitsSold * (1 + demandChangePercent)
  let newRevenue := newPrice * newUnits
  let newCOGS := (newRevenue / baselineData.monthlyRevenue) * baselineData.monthlyCOGS
  { revenue := newRevenue
    cogs := newCOGS
    units := newUnits
    demandChange := demandChangePercent }

/-- `calculateMarketingImpact` from `simulationUtils.ts` lines 100-124.
The sequential `+=` updates of `revenueBoostPercent` become nested `let`s. -/
def calculateMarketingImpact (baselineData : PLData) (marketingSpend : ℚ) : ℚ :=
  let additionalSpend := marketingSpend - baselineData.marketingSpend
  let revenueBoostPercent : ℚ :=
    if additionalSpend > 0 then
      let firstTier := min additionalSpend 10000
      let afterFirst := (firstTier / 10000) * (20/100)
      if additionalSpend > 10000 then
        let secondTier := min (additionalSpend - 10000) 10000
        let afterSecond := afterFirst + (secondTier / 10000) * (10/100)
        if additionalSpend > 20000 then
          let thirdTier := additionalSpend - 20000
          let thirdTierBoost := min ((thirdTier / 10000) * (5/100)) (20/100)
          afterSecond + thirdTierBoost
        else afterSecond
      else afterFirst
    else 0
  min revenueBoostPercent (50/100)

/-- Return type of `calculateLaborAutomationImpact`. -/
structure LaborImpact where
  laborCostReduction : ℚ
  automationInvestment : ℚ
  netImpact : ℚ
  deriving DecidableEq, Repr

/-- `calculateLaborAutomationImpact` from `simulationUtils.ts` lines 127-156.
The `try/catch` cannot fire on total rational arithmetic and is dropped; the
`|| 0` fallbacks on the returned fields are kept as `jsOr0`. -/
def calculateLaborAutomationImpact (baselineData : PLData) (automationLevel : ℚ) : LaborImpact :=
  let baselineAutomation : ℚ := 10
  let totalOperatingExpenses := baselineData.monthlyCOGS + baselineData.monthlyLabor + baselineData.monthlyOverhead
  let baselineLaborCost := totalOperatingExpenses * (35/100)
  let automationChange := automationLevel - baselineAutomation
  let automationTiers : ℤ := ⌊automationChange / 10⌋
  let laborCostReduction := (automationTiers : ℚ) * (8/100) * baselineLaborCost
  let automationInvestment := (automationTiers : ℚ) * 2000
  let netImpact := laborCostReduction - automationInvestment
  { laborCostReduction := jsOr0 laborCostReduction
    automationInvestment := jsOr0 automationInvestment
    netImpact := jsOr0 netImpact }

/-- Return type of `calculateProductionEfficiencyImpact`. -/
structure EfficiencyImpact where
  cogsReduction : ℚ
  revenueIncrease : ℚ
  implementationCost : ℚ
  netImpact : ℚ
  deriving DecidableEq, Repr

/-- `calculateProductionEfficiencyImpact` from `simulationUtils.ts`
lines 159-191 (`try/catch` dropped as above, `|| 0` kept as `jsOr0`). -/
def calculateProductionEfficiencyImpact (baselineData : PLData) (efficiencyLevel : ℚ) : EfficiencyImpact :=
  let baselineEfficiency : ℚ := 100
  let baselineCOGS := baselineData.monthlyRevenue * (60/100)
  let efficiencyChange := efficiencyLevel - baselineEfficiency
  let efficiencyTiers : ℤ := ⌊efficiencyChange / 10⌋
  let cogsReduction := (efficiencyTiers : ℚ) * (6/100) * baselineCOGS
  let revenueIncrease := (efficiencyTiers : ℚ) * (5/100) * baselineData.monthlyRevenue
  let implementationCost := (efficiencyTiers : ℚ) * 1500
  let netImpact := cogsReduction + revenueIncrease - implementationCost
  { cogsReduction := jsOr0 cogsReduction
    revenueIncrease := jsOr0 revenueIncrease
    implementationCost := jsOr0 implementationCost
    netImpact := jsOr0 netImpact }

/-- Return type of `calculateInventoryTurnoverImpact`. -/
structure InventoryImpact where
  carryingCostReduction : ℚ
  wasteReduction : ℚ
  implementationCost : ℚ
  workingCapitalReduction : ℚ
  netImpact : ℚ
  deriving DecidableEq, Repr

/-- `calculateInventoryTurnoverImpact` from `simulationUtils.ts`
lines 194-229 (`try/catch` dropped as above, `|| 0` kept as `jsOr0`). -/
def calculateInventoryTurnoverImpact (baselineData : PLData) (turnoverRate : ℚ) : InventoryImpact :=
  let baselineTurnover : ℚ := 6
  let turnoverChange := turnoverRate - baselineTurnover
  let carryingCostReduction := turnoverChange * 500
  let wasteReduction := turnoverChange * 300
  let implementationCost := (⌊turnoverChange / 2⌋ : ℚ) * 800
  let workingCapitalReduction := turnoverChange * (3/100)
  let netImpact := carryingCostReduction + wasteReduction - implementationCost
  { carryingCostReduction := jsOr0 carryingCostReduction
    wasteReduction := jsOr0 wasteReduction
    implementationCost := jsOr0 implementationCost
    workingCapitalReduction := jsOr0 workingCapitalReduction
    netImpact := jsOr0 netImpact }

/-- The `months` array in `generateForecastData`. -/
def months : List String :=
  ["Jan", "Feb", "Mar", "Apr", "May", "Jun", "Jul", "Aug", "Sep", "Oct", "Nov", "Dec"]

/-- The `seasonalFactors` array in `generateForecastData`. -/
def seasonalFactors : List ℚ :=
  [95/100, 92/100, 102/100, 105/100, 108/100, 112/100, 115/100, 110/100,
   105/100, 1, 90/100, 85/100]

/-- The growth factor `1 + (0.035 * (index / 12))` in `generateForecastData`. -/
def growthFactor (index : ℕ) : ℚ := 1 + (35/1000) * ((index : ℚ) / 12)

/-- The per-month unrounded original profit of `generateForecastData`:
`baselineData.monthlyProfit * growthFactor * seasonalFactor`. -/
def originalProfitRaw (baselineData : PLData) (index : ℕ) : ℚ :=
  baselineData.monthlyProfit * growthFactor index * seasonalFactors.getD index 0

/-- The per-month unrounded adjusted profit of `generateForecastData`
(lines 241-275): price and marketing impacts, optional operational impacts,
growth and seasonality on the revenue and COGS terms only, and the flat
subtraction of labor, overhead and the marketing spend. -/
def adjustedProfitRaw (baselineData : PLData) (priceValue marketingValue : ℚ)
    (operationalFactors : Option OperationalFactors) (index : ℕ) : ℚ :=
  let priceImpact := calculatePriceImpact baselineData priceValue
  let marketingBoost := calculateMarketingImpact baselineData marketingValue
  let automationNetImpact :=
    match operationalFactors with
    | some o => (calculateLaborAutomationImpact baselineData o.laborAutomationLevel).netImpact
    | none => 0
  let efficiencyImpact :=
    match operationalFactors with
    | some o => calculateProductionEfficiencyImpact baselineData o.productionEfficiency
    | none => { cogsReduction := 0, revenueIncrease := 0, implementationCost := 0, netImpact := 0 }
  let inventoryNetImpact :=
    match operationalFactors with
    | some o => (calculateInventoryTurnoverImpact baselineData o.inventoryTurnoverRate).netImpact
    | none => 0
  let g := growthFactor index
  let s := seasonalFactors.getD index 0
  let adjustedRevenue :=
    priceImpact.revenue * (1 + marketingBoost) * g * s + jsOr0 efficiencyImpact.revenueIncrease * g * s
  let adjustedCOGS :=
    priceImpact.cogs * g * s - jsOr0 efficiencyImpact.cogsReduction * g * s
  adjustedRevenue - adjustedCOGS - baselineData.monthlyLabor - baselineData.monthlyOverhead
    - marketingValue + jsOr0 automationNetImpact + jsOr0 inventoryNetImpact

/-- One element of the array returned by `generateForecastData`
(lines 280-288): the rounded profits and the ±15% confidence bounds, each
bound computed from the unrounded `x || 0` profit and rounded on its own. -/
def forecastPoint (baselineData : PLData) (priceValue marketingValue : ℚ)
    (operationalFactors : Option OperationalFactors) (index : ℕ) (month : String) : ForecastData :=
  let originalProfit := originalProfitRaw baselineData index
  let adjustedProfit := adjustedProfitRaw baselineData priceValue marketingValue operationalFactors index
  let confidenceRange : ℚ := 15/100
  { month := month
    originalProfit := jsRound (jsOr0 originalProfit)
    adjustedProfit := jsRound (jsOr0 adjustedProfit)
    originalLowerBound := jsRound (jsOr0 originalProfit * (1 - confidenceRange))
    originalUpperBound := jsRound (jsOr0 originalProfit * (1 + confidenceRange))
    adjustedLowerBound := jsRound (jsOr0 adjustedProfit * (1 - confidenceRange))
    adjustedUpperBound := jsRound (jsOr0 adjustedProfit * (1 + confidenceRange)) }

/-- `generateForecastData` from `simulationUtils.ts` lines 232-290:
`months.map((month, index) => ...)`. -/
def generateForecastData (baselineData : PLData) (priceValue marketingValue : ℚ)
    (operationalFactors : Option OperationalFactors := none) : List ForecastData :=
  months.enum.map fun p =>
    forecastPoint baselineData priceValue marketingValue operationalFactors p.1 p.2

/-- Return type of `calculateSummaryMetrics`.  `totalInvestment` is rounded
by `Math.round`, hence an integer; `roi` is rounded to one decimal place and
stays rational. -/
structure SummaryMetrics where
  currentProfit : ℚ
  newProfit : ℚ
  monthlyDifference : ℚ
  annualDifference : ℚ
  roi : ℚ
  totalInvestment : ℤ
  deriving DecidableEq, Repr

/-- The JavaScript idiom `x || 0` on the optional integer
`forecastData[0]?.adjustedProfit`. -/
def jsOr0Z (x : Option ℤ) : ℤ :=
  match x with
  | none => 0
  | some v => if v = 0 then 0 else v

/-- `calculateSummaryMetrics` from `simulationUtils.ts` lines 293-327. -/
def calculateSummaryMetrics (baselineData : PLData) (forecastData : List ForecastData)
    (marketingValue : ℚ) (operationalFactors : Option OperationalFactors := none) : SummaryMetrics :=
  let currentProfit := baselineData.monthlyProfit
  let newProfit : ℚ := (jsOr0Z (forecastData.head?.map (fun p => p.adjustedProfit)) : ℤ)
  let monthlyDifference := newProfit - currentProfit
  let annualDifference := monthlyDifference * 12
  let baseInvestment := (marketingValue - baselineData.marketingSpend) * 12
  let totalInvestment :=
    match operationalFactors with
    | some o =>
      baseInvestment
        + jsOr0 (calculateLaborAutomationImpact baselineData o.laborAutomationLevel).automationInvestment * 12
        + jsOr0 (calculateProductionEfficiencyImpact baselineData o.productionEfficiency).implementationCost * 12
        + jsOr0 (calculateInventoryTurnoverImpact baselineData o.inventoryTurnoverRate).implementationCost * 12
    | none => baseInvestment
  let roi := if totalInvestment > 0 then annualDifference / totalInvestment * 100 else 0
  { currentProfit := currentProfit
    newProfit := newProfit
    monthlyDifference := monthlyDifference
    annualDifference := annualDifference
    roi := (jsRound (roi * 10) : ℚ) / 10
    totalInvestment := jsRound totalInvestment }

end SimulationUtils

namespace JsModel

/-- A JavaScript number that may be `NaN`: `none` is `NaN`, `some q` is the
finite value `q`.  (The C3 scenarios never produce infinities, so `none`
only ever stands for `NaN`.) -/
abbrev JsNum := Option ℚ

/-- Addition; `NaN` propagates. -/
def jadd (a b : JsNum) : JsNum :=
  match a, b with
  | some x, some y => some (x + y)
  | _, _ => none

/-- Subtraction; `NaN` propagates. -/
def jsub (a b : JsNum) : JsNum :=
  match a, b with
  | some x, some y => some (x - y)
  | _, _ => none

/-- Multiplication; `NaN` propagates. -/
def jmul (a b : JsNum) : JsNum :=
  match a, b with
  | some x, some y => some (x * y)
  | _, _ => none

/-- Division; `NaN` propagates.  Division by zero is never reached in the
modelled paths (all divisors are nonzero constants), so it is mapped to
`none` as well. -/
def jdiv (a b : JsNum) : JsNum :=
  match a, b with
  | some x, some y => if y = 0 then none else some (x / y)
  | _, _ => none

/-- `Math.floor`; `Math.floor NaN = NaN`. -/
def jfloor (a : JsNum) : JsNum := a.map fun q => ((⌊q⌋ : ℤ) : ℚ)

/-- `Math.round`; `Math.round NaN = NaN`. -/
def jroundN (a : JsNum) : JsNum := a.map fun q => ((⌊q + 1/2⌋ : ℤ) : ℚ)

/-- The JavaScript idiom `x || 0` on a possibly-`NaN` number: both `NaN`
and `0` are falsy, so both become `0`; every other value passes through.
In particular the result is never `NaN`. -/
def jsOrZero (a : JsNum) : JsNum :=
  match a with
  | none => some 0
  | some v => if v = 0 then some 0 else some v

/-- The baseline record over possibly-`NaN` numbers. -/
structure PLDataJs where
  monthlyRevenue : JsNum
  monthlyCOGS : JsNum
  monthlyLabor : JsNum
  monthlyOverhead : JsNum
  monthlyProfit : JsNum
  averagePrice : JsNum
  unitsSold : JsNum
  marketingSpend : JsNum
  deriving DecidableEq, Repr

/-- Return type of `calculateLaborAutomationImpact` over possibly-`NaN`
numbers. -/
structure LaborImpactJs where
  laborCostReduction : JsNum
  automationInvestment : JsNum
  netImpact : JsNum
  deriving DecidableEq, Repr

/-- `totalOperatingExpenses` of `calculateLaborAutomationImpact` (line 131). -/
def totalOperatingExpensesJs (b : PLDataJs) : JsNum :=
  jadd (jadd b.monthlyCOGS b.monthlyLabor) b.monthlyOverhead

/-- `baselineLaborCost` of `calculateLaborAutomationImpact` (line 132). -/
def baselineLaborCostJs (b : PLDataJs) : JsNum :=
  jmul (totalOperatingExpensesJs b) (some (35/100))

/-- `automationTiers` of `calculateLaborAutomationImpact` (lines 135-136). -/
def automationTiersJs (automationLevel : JsNum) : JsNum :=
  jfloor (jdiv (jsub automationLevel (some 10)) (some 10))

/-- `laborCostReduction` of `calculateLaborAutomationImpact` before the
`|| 0` fallback (line 139). -/
def laborCostReductionJs (b : PLDataJs) (automationLevel : JsNum) : JsNum :=
  jmul (jmul (automationTiersJs automationLevel) (some (8/100))) (baselineLaborCostJs b)

/-- `automationInvestment` of `calculateLaborAutomationImpact` before the
`|| 0` fallback (line 142). -/
def automationInvestmentJs (automationLevel : JsNum) : JsNum :=
  jmul (automationTiersJs automationLevel) (some 2000)

/-- `calculateLaborAutomationImpact` (lines 127-156) over possibly-`NaN`
numbers: every returned field goes through the `|| 0` fallback of
lines 147-151. -/
def calculateLaborAutomationImpactJs (b : PLDataJs) (automationLevel : JsNum) : LaborImpactJs :=
  let laborCostReduction := laborCostReductionJs b automationLevel
  let automationInvestment := automationInvestmentJs automationLevel
  let netImpact := jsub laborCostReduction automationInvestment
  { laborCostReduction := jsOrZero laborCostReduction
    automationInvestment := jsOrZero automationInvestment
    netImpact := jsOrZero netImpact }

/-- A forecast point over possibly-`NaN` numbers. -/
structure ForecastDataJs where
  month : String
  originalProfit : JsNum
  adjustedProfit : JsNum
  originalLowerBound : JsNum
  originalUpperBound : JsNum
  adjustedLowerBound : JsNum
  adjustedUpperBound : JsNum
  deriving DecidableEq, Repr

/-- The object returned for one month by `generateForecastData`
(lines 280-288) as a function of the possibly-`NaN` unrounded profits:
every numeric field applies `Math.round` to an `x || 0` expression. -/
def mkForecastPointJs (month : String) (originalProfit adjustedProfit : JsNum) : ForecastDataJs :=
  let confidenceRange : ℚ := 15/100
  { month := month
    originalProfit := jroundN (jsOrZero originalProfit)
    adjustedProfit := jroundN (jsOrZero adjustedProfit)
    originalLowerBound := jroundN (jmul (jsOrZero originalProfit) (some (1 - confidenceRange)))
    originalUpperBound := jroundN (jmul (jsOrZero originalProfit) (some (1 + confidenceRange)))
    adjustedLowerBound := jroundN (jmul (jsOrZero adjustedProfit) (some (1 - confidenceRange)))
    adjustedUpperBound := jroundN (jmul (jsOrZero adjustedProfit) (some (1 + confidenceRange))) }

/-- A baseline whose `monthlyCOGS` is `NaN` (a malformed numeric field) and
whose other fields are the default numbers. -/
def nanCOGSBaseline : PLDataJs :=
  { monthlyRevenue := some 100000
    monthlyCOGS := none
    monthlyLabor := some 20000
    monthlyOverhead := some 12000
    monthlyProfit := some 8000
    averagePrice := some 50
    unitsSold := some 2000
    marketingSpend := some 3000 }

end JsModel

namespace SimulationUtils

/-- Non-negativity of an optional numeric payload field: an absent field is
vacuously fine, a supplied value must be non-negative. -/
def optNonneg : Option ℚ → Prop
  | none => True
  | some v => 0 ≤ v

/-- All numeric fields supplied in a `costs` object are non-negative. -/
def costsNonneg : Option PayloadCosts → Prop
  | none => True
  | some c => optNonneg c.cogs ∧ optNonneg c.labor ∧ optNonneg c.overhead

/-- All numeric fields supplied in a `baseline` object are non-negative. -/
def baselinePayloadNonneg : Option PayloadBaseline → Prop
  | none => True
  | some b => optNonneg b.revenue ∧ costsNonneg b.costs

/-- All numeric fields supplied anywhere in the payload are non-negative. -/
def payloadNonneg : Option Payload → Prop
  | none => True
  | some p => baselinePayloadNonneg p.baseline ∧ optNonneg p.averagePrice ∧ optNonneg p.marketingSpend

/-- A default forecast point, used only as the out-of-range value of `getD`
when indexing the forecast series. -/
def emptyPoint : ForecastData :=
  { month := "", originalProfit := 0, adjustedProfit := 0, originalLowerBound := 0,
    originalUpperBound := 0, adjustedLowerBound := 0, adjustedUpperBound := 0 }

/-- The label of the first forecast month. -/
def janLabel : String := "Jan"

end SimulationUtils

namespace SimulationUtils

/-- `x || 0` is the identity on rationals (`0` maps to `0`). -/
theorem jsOr0_eq (x : ℚ) : jsOr0 x = x := by
  unfold jsOr0; split <;> simp_all

theorem jsOrD_nonneg {x : Option ℚ} {d : ℚ} (hd : 0 ≤ d) (hx : optNonneg x) :
    0 ≤ jsOrD x d := by
  cases x with
  | none => simpa [jsOrD] using hd
  | some v =>
    simp only [jsOrD, optNonneg] at *
    split
    · exact hd
    · exact hx

theorem jsOrD_pos {x : Option ℚ} {d : ℚ} (hd : 0 < d) (hx : optNonneg x) :
    0 < jsOrD x d := by
  cases x with
  | none => simpa [jsOrD] using hd
  | some v =>
    simp only [jsOrD, optNonneg] at *
    split
    · exact hd
    · next h => exact lt_of_le_of_ne hx (Ne.symm h)

/-- The unfolding of `generateForecastData` into its twelve points. -/
theorem generateForecastData_explicit (B : PLData) (p m : ℚ) (opf : Option OperationalFactors) :
    generateForecastData B p m opf =
      [forecastPoint B p m opf 0 "Jan", forecastPoint B p m opf 1 "Feb",
       forecastPoint B p m opf 2 "Mar", forecastPoint B p m opf 3 "Apr",
       forecastPoint B p m opf 4 "May", forecastPoint B p m opf 5 "Jun",
       forecastPoint B p m opf 6 "Jul", forecastPoint B p m opf 7 "Aug",
       forecastPoint B p m opf 8 "Sep", forecastPoint B p m opf 9 "Oct",
       forecastPoint B p m opf 10 "Nov", forecastPoint B p m opf 11 "Dec"] := rfl

end SimulationUtils

namespace JsModel

/-- `jsOrZero` never returns `NaN`: the `|| 0` fallback always yields a
finite number. -/
theorem jsOrZero_ne_none (a : JsNum) : jsOrZero a ≠ none := by
  cases a with
  | none => simp [jsOrZero]
  | some v =>
    simp only [jsOrZero]
    split <;> simp

end JsModel

namespace Claims

open SimulationUtils JsModel

/-- C9: `extractPLData` applied to an absent (`null` / `undefined`) payload
returns exactly the fixed default snapshot: revenue 100000, COGS 60000,
labor 20000, overhead 12000, profit 8000, average price 50, units 2000,
marketing spend 3000. -/
theorem extractPLData_none_eq_defaults :
    extractPLData none =
      { monthlyRevenue := 100000, monthlyCOGS := 60000, monthlyLabor := 20000,
        monthlyOverhead := 12000, monthlyProfit := 8000, averagePrice := 50,
        unitsSold := 2000, marketingSpend := 3000 } := rfl

/-- C7: for every baseline, `calculateLaborAutomationImpact` at level 10
returns the all-zero record, at level 20 the automation investment is 2000,
and at level 30 it is 4000 (tiers are `⌊(level - 10) / 10⌋`). -/
theorem laborAutomation_tier_values (B : PLData) :
    calculateLaborAutomationImpact B 10 =
      { laborCostReduction := 0, automationInvestment := 0, netImpact := 0 } ∧
    (calculateLaborAutomationImpact B 20).automationInvestment = 2000 ∧
    (calculateLaborAutomationImpact B 30).automationInvestment = 4000 := by
  refine ⟨?_, ?_, ?_⟩ <;> norm_num [calculateLaborAutomationImpact, jsOr0]

/-- C8: for every baseline, `calculateInventoryTurnoverImpact` at turnover 6
returns the all-zero record, at turnover 8 the implementation cost is 800,
and at turnover 7 it is 0 (the cost is tiered as `⌊delta / 2⌋ * 800`). -/
theorem inventoryTurnover_tier_values (B : PLData) :
    calculateInventoryTurnoverImpact B 6 =
      { carryingCostReduction := 0, wasteReduction := 0, implementationCost := 0,
        workingCapitalReduction := 0, netImpact := 0 } ∧
    (calculateInventoryTurnoverImpact B 8).implementationCost = 800 ∧
    (calculateInventoryTurnoverImpact B 7).implementationCost = 0 := by
  refine ⟨?_, ?_, ?_⟩ <;> norm_num [calculateInventoryTurnoverImpact, jsOr0]

/-- C6: for every baseline, the marketing boost is 0 at the baseline spend,
0.20 at baseline spend + 10000, at most 0.50 for every spend, and 0 for any
spend below the baseline spend. -/
theorem marketingImpact_values (B : PLData) (spend : ℚ) :
    calculateMarketingImpact B B.marketingSpend = 0 ∧
    calculateMarketingImpact B (B.marketingSpend + 10000) = 20/100 ∧
    calculateMarketingImpact B spend ≤ 50/100 ∧
    (spend < B.marketingSpend → calculateMarketingImpact B spend = 0) := by
  refine ⟨?_, ?_, ?_, ?_⟩
  · norm_num [calculateMarketingImpact]
  · norm_num [calculateMarketingImpact]
  · exact min_le_right _ _
  · intro h
    have h2 : ¬ (spend - B.marketingSpend > 0) := by linarith
    norm_num [calculateMarketingImpact, h2]

/-- C6 witness: at the default baseline and spend 0 (below the baseline
spend 3000) the boost is 0. -/
theorem marketingImpact_values_witness :
    (0:ℚ) < defaultData.marketingSpend ∧ calculateMarketingImpact defaultData 0 = 0 :=
  ⟨by norm_num [defaultData],
   (marketingImpact_values defaultData 0).2.2.2 (by norm_num [defaultData])⟩

/-- C10: for every baseline, marketing value and optional operational
factors, `calculateSummaryMetrics` on an empty forecast series is total and
returns `newProfit = 0`, hence `monthlyDifference = -monthlyProfit`. -/
theorem summaryMetrics_empty_forecast (B : PLData) (m : ℚ) (opf : Option OperationalFactors) :
    (calculateSummaryMetrics B [] m opf).newProfit = 0 ∧
    (calculateSummaryMetrics B [] m opf).currentProfit = B.monthlyProfit ∧
    (calculateSummaryMetrics B [] m opf).monthlyDifference = -B.monthlyProfit ∧
    (calculateSummaryMetrics B [] m opf).annualDifference = -B.monthlyProfit * 12 := by
  refine ⟨?_, ?_, ?_, ?_⟩ <;> simp [calculateSummaryMetrics, jsOr0Z]

/-- C2 counterexample: a payload supplying `baseline.revenue = 1` (all other
fields defaulted) yields a record whose `monthlyProfit` is negative, so not
every field of the extracted record is non-negative. -/
theorem extractPLData_negative_profit :
    (extractPLData (some { baseline := some { revenue := some 1, costs := none },
                           averagePrice := none, marketingSpend := none })).monthlyProfit < 0 := by
  norm_num [extractPLData, jsOrD, defaultData]

/-- C2 amended: for every payload whose supplied numeric fields are all
non-negative, the fully-populated record returned by `extractPLData` has
every field except `monthlyProfit` non-negative (with `averagePrice`
strictly positive); `monthlyProfit` may be negative. -/
theorem extractPLData_fields_nonneg (p : Option Payload) (h : payloadNonneg p) :
    0 ≤ (extractPLData p).monthlyRevenue ∧ 0 ≤ (extractPLData p).monthlyCOGS ∧
    0 ≤ (extractPLData p).monthlyLabor ∧ 0 ≤ (extractPLData p).monthlyOverhead ∧
    0 < (extractPLData p).averagePrice ∧ 0 ≤ (extractPLData p).unitsSold ∧
    0 ≤ (extractPLData p).marketingSpend := by
  cases p with
  | none => norm_num [extractPLData, defaultData]
  | some p =>
    obtain ⟨hb, hap, hms⟩ := h
    have hrev : optNonneg (p.baseline.getD ⟨none, none⟩).revenue := by
      cases hpb : p.baseline with
      | none => simp [optNonneg]
      | some b => rw [hpb] at hb; exact hb.1
    have hcosts : costsNonneg (p.baseline.getD ⟨none, none⟩).costs := by
      cases hpb : p.baseline with
      | none => simp [costsNonneg]
      | some b => rw [hpb] at hb; exact hb.2
    have hcogs : optNonneg ((p.baseline.getD ⟨none, none⟩).costs.getD ⟨none, none, none⟩).cogs := by
      cases hc : (p.baseline.getD ⟨none, none⟩).costs with
      | none => simp [optNonneg]
      | some c => rw [hc] at hcosts; exact hcosts.1
    have hlab : optNonneg ((p.baseline.getD ⟨none, none⟩).costs.getD ⟨none, none, none⟩).labor := by
      cases hc : (p.baseline.getD ⟨none, none⟩).costs with
      | none => simp [optNonneg]
      | some c => rw [hc] at hcosts; exact hcosts.2.1
    have hov : optNonneg ((p.baseline.getD ⟨none, none⟩).costs.getD ⟨none, none, none⟩).overhead := by
      cases hc : (p.baseline.getD ⟨none, none⟩).costs with
      | none => simp [optNonneg]
      | some c => rw [hc] at hcosts; exact hcosts.2.2
    refine ⟨?_, ?_, ?_, ?_, ?_, ?_, ?_⟩
    · exact jsOrD_nonneg (by norm_num [defaultData]) hrev
    · exact jsOrD_nonneg (by norm_num [defaultData]) hcogs
    · exact jsOrD_nonneg (by norm_num [defaultData]) hlab
    · exact jsOrD_nonneg (by norm_num [defaultData]) hov
    · exact jsOrD_pos (by norm_num [defaultData]) hap
    · exact div_nonneg (jsOrD_nonneg (by norm_num [defaultData]) hrev)
        (le_of_lt (jsOrD_pos (by norm_num [defaultData]) hap))
    · exact jsOrD_nonneg (by norm_num [defaultData]) hms

/-- C2 witness: the absent payload is non-negative and yields a
non-negative revenue. -/
theorem extractPLData_fields_nonneg_witness :
    payloadNonneg none ∧ 0 ≤ (extractPLData none).monthlyRevenue :=
  ⟨True.intro, (extractPLData_fields_nonneg none True.intro).1⟩

/-- C4 counterexample: a baseline whose `unitsSold` is not
`monthlyRevenue / averagePrice` (revenue 100, price 10, units 5) gives, at
the unchanged price, `demandChange = 0` but `revenue = 50 ≠ 100`. -/
theorem priceImpact_inconsistent_baseline :
    (calculatePriceImpact ⟨100, 60, 20, 12, 8, 10, 5, 3⟩ 10).demandChange = 0 ∧
    (calculatePriceImpact ⟨100, 60, 20, 12, 8, 10, 5, 3⟩ 10).revenue ≠
      (⟨100, 60, 20, 12, 8, 10, 5, 3⟩ : PLData).monthlyRevenue := by
  norm_num [calculatePriceImpact]

/-- C4 amended: for every baseline with a nonzero average price whose
`unitsSold` is consistent with `monthlyRevenue / averagePrice` (as
`extractPLData` produces), pricing at the baseline average price gives
`demandChange = 0` and revenue equal to the baseline monthly revenue. -/
theorem priceImpact_at_baseline_price (B : PLData) (h0 : B.averagePrice ≠ 0)
    (hu : B.unitsSold * B.averagePrice = B.monthlyRevenue) :
    (calculatePriceImpact B B.averagePrice).demandChange = 0 ∧
    (calculatePriceImpact B B.averagePrice).revenue = B.monthlyRevenue := by
  constructor
  · simp [calculatePriceImpact]
  · simp [calculatePriceImpact]
    rw [← hu]; ring

/-- C4 witness: the default baseline satisfies both hypotheses and the
conclusion at its average price 50. -/
theorem priceImpact_at_baseline_price_witness :
    (defaultData.averagePrice ≠ 0 ∧
     defaultData.unitsSold * defaultData.averagePrice = defaultData.monthlyRevenue) ∧
    (calculatePriceImpact defaultData defaultData.averagePrice).demandChange = 0 ∧
    (calculatePriceImpact defaultData defaultData.averagePrice).revenue = defaultData.monthlyRevenue :=
  ⟨⟨by norm_num [defaultData], by norm_num [defaultData]⟩,
   priceImpact_at_baseline_price defaultData (by norm_num [defaultData]) (by norm_num [defaultData])⟩

/-- C3 counterexample: with a `NaN` `monthlyCOGS` and automation level 20,
the intermediate labor-cost reduction is `NaN`, yet the returned record is
`{0, 2000, 0}` — and a `NaN` profit yields a forecast point whose rounded
fields are all 0: the `|| 0` fallbacks at the cited lines catch `NaN`, so
the caller never sees it. -/
theorem nan_caught_at_cited_sites :
    laborCostReductionJs nanCOGSBaseline (some 20) = none ∧
    calculateLaborAutomationImpactJs nanCOGSBaseline (some 20) =
      { laborCostReduction := some 0, automationInvestment := some 2000, netImpact := some 0 } ∧
    mkForecastPointJs janLabel none none =
      { month := janLabel, originalProfit := some 0, adjustedProfit := some 0,
        originalLowerBound := some 0, originalUpperBound := some 0,
        adjustedLowerBound := some 0, adjustedUpperBound := some 0 } := by
  refine ⟨rfl, ?_, ?_⟩
  · norm_num [calculateLaborAutomationImpactJs, laborCostReductionJs, automationInvestmentJs,
      automationTiersJs, baselineLaborCostJs, totalOperatingExpensesJs, nanCOGSBaseline,
      jmul, jadd, jsub, jdiv, jfloor, jsOrZero]
  · norm_num [mkForecastPointJs, jsOrZero, jroundN, jmul]

/-- C3 amended: malformed numeric input does propagate as `NaN` through the
intermediate arithmetic (the raw labor-cost reduction is `NaN` for every
automation level when `monthlyCOGS` is `NaN`), but the `|| 0` fallbacks at
the cited sites convert it to 0: every field of the returned impact record
is a number, and rounding a `NaN` profit surfaces 0, not `NaN`. -/
theorem nan_propagates_then_zeroed (lvl : ℚ) (month : String) :
    laborCostReductionJs nanCOGSBaseline (some lvl) = none ∧
    (calculateLaborAutomationImpactJs nanCOGSBaseline (some lvl)).laborCostReduction = some 0 ∧
    (calculateLaborAutomationImpactJs nanCOGSBaseline (some lvl)).netImpact = some 0 ∧
    (calculateLaborAutomationImpactJs nanCOGSBaseline (some lvl)).automationInvestment ≠ none ∧
    mkForecastPointJs month none none =
      { month := month, originalProfit := some 0, adjustedProfit := some 0,
        originalLowerBound := some 0, originalUpperBound := some 0,
        adjustedLowerBound := some 0, adjustedUpperBound := some 0 } := by
  refine ⟨rfl, rfl, rfl, jsOrZero_ne_none (automationInvestmentJs (some lvl)), ?_⟩
  norm_num [mkForecastPointJs, jsOrZero, jroundN, jmul]

/-- C5: for every baseline and input, `generateForecastData` returns exactly
12 points labelled Jan through Dec, and each lower / upper bound (for both
the original and the adjusted series) is the unrounded profit of that month
times 0.85 / 1.15, rounded independently of the rounded profit. -/
theorem generateForecastData_shape (B : PLData) (p m : ℚ) (opf : Option OperationalFactors) :
    (generateForecastData B p m opf).length = 12 ∧
    (generateForecastData B p m opf).map ForecastData.month =
      ["Jan", "Feb", "Mar", "Apr", "May", "Jun", "Jul", "Aug", "Sep", "Oct", "Nov", "Dec"] ∧
    ∀ i, i < 12 →
      ((generateForecastData B p m opf).getD i emptyPoint).originalLowerBound =
          jsRound (originalProfitRaw B i * (85/100)) ∧
      ((generateForecastData B p m opf).getD i emptyPoint).originalUpperBound =
          jsRound (originalProfitRaw B i * (115/100)) ∧
      ((generateForecastData B p m opf).getD i emptyPoint).adjustedLowerBound =
          jsRound (adjustedProfitRaw B p m opf i * (85/100)) ∧
      ((generateForecastData B p m opf).getD i emptyPoint).adjustedUpperBound =
          jsRound (adjustedProfitRaw B p m opf i * (115/100)) := by
  refine ⟨rfl, rfl, ?_⟩
  intro i hi
  rw [generateForecastData_explicit]
  interval_cases i <;>
    exact ⟨by norm_num [forecastPoint, jsOr0_eq],
           by norm_num [forecastPoint, jsOr0_eq],
           by norm_num [forecastPoint, jsOr0_eq],
           by norm_num [forecastPoint, jsOr0_eq]⟩

/-- C5 witness: the bound relation holds at the default baseline for the
first month. -/
theorem generateForecastData_shape_witness :
    (0:ℕ) < 12 ∧
    ((generateForecastData defaultData 50 3000 none).getD 0 emptyPoint).originalLowerBound =
      jsRound (originalProfitRaw defaultData 0 * (85/100)) :=
  ⟨by norm_num, ((generateForecastData_shape defaultData 50 3000 none).2.2 0 (by norm_num)).1⟩

/-- The adjusted January profit at the default baseline with price 50,
marketing 3000 and no levers: the 0.95 seasonal factor and the subtraction
of the marketing spend give 3000, not 8000. -/
theorem adjusted_jan_default :
    adjustedProfitRaw defaultData 50 3000 none 0 = 3000 := by
  norm_num [adjustedProfitRaw, calculatePriceImpact, calculateMarketingImpact, defaultData,
    growthFactor, seasonalFactors, jsOr0]

/-- The summary metrics at the default baseline with price 50, marketing
3000 and no levers. -/
theorem summary_jan_default :
    calculateSummaryMetrics defaultData (generateForecastData defaultData 50 3000 none) 3000 none =
      { currentProfit := 8000, newProfit := 3000, monthlyDifference := -5000,
        annualDifference := -60000, roi := 0, totalInvestment := 0 } := by
  have h2 : (forecastPoint defaultData 50 3000 none 0 "Jan").adjustedProfit = 3000 := by
    norm_num [forecastPoint, jsOr0_eq, adjusted_jan_default, jsRound]
  have h3 : (generateForecastData defaultData 50 3000 none).head?.map
      (fun p => p.adjustedProfit) = some 3000 := by
    rw [generateForecastData_explicit]
    simp [h2]
  simp only [calculateSummaryMetrics, h3, jsOr0Z]
  norm_num [jsRound, defaultData]

/-- C1 counterexample: with the default baseline, price 50, marketing 3000
and no levers, the summary does not satisfy
`newProfit = currentProfit = 8000` with zero difference: `newProfit` is
3000. -/
theorem summary_defaults_not_unchanged :
    ¬ ((calculateSummaryMetrics defaultData (generateForecastData defaultData 50 3000 none) 3000 none).newProfit = 8000 ∧
       (calculateSummaryMetrics defaultData (generateForecastData defaultData 50 3000 none) 3000 none).currentProfit = 8000 ∧
       (calculateSummaryMetrics defaultData (generateForecastData defaultData 50 3000 none) 3000 none).monthlyDifference = 0 ∧
       (calculateSummaryMetrics defaultData (generateForecastData defaultData 50 3000 none) 3000 none).roi = 0) := by
  simp [summary_jan_default]

/-- C1 amended: end-to-end with the default baseline, price 50, marketing
3000 and no levers, `calculateSummaryMetrics` returns `newProfit = 3000`,
`currentProfit = 8000`, `monthlyDifference = -5000` and `roi = 0` (the
January seasonal factor 0.95 and the subtraction of the full marketing
spend lower the adjusted profit below the baseline profit). -/
theorem summary_defaults_values :
    (calculateSummaryMetrics defaultData (generateForecastData defaultData 50 3000 none) 3000 none).newProfit = 3000 ∧
    (calculateSummaryMetrics defaultData (generateForecastData defaultData 50 3000 none) 3000 none).currentProfit = 8000 ∧
    (calculateSummaryMetrics defaultData (generateForecastData defaultData 50 3000 none) 3000 none).monthlyDifference = -5000 ∧
    (calculateSummaryMetrics defaultData (generateForecastData defaultData 50 3000 none) 3000 none).roi = 0 := by
  simp [summary_jan_default]

end Claims
